import Mathlib

/-!
Shallow embedding of the fbinfogrid cell scheduling and compositing engine
(`fbinfogrid.go`).  Go machine integers are modelled as `Int` (no arithmetic
here approaches 2^63); Go's truncating integer division is `Int.tdiv`;
fatal exits (`panic`, `log.Fatalf`) are modelled as the `.error` branch of
`Except` or as an explicit outcome constructor; the `float64` field
`FontPts` only ever holds the exactly-representable integral constants
0, 60, 80 and 128, so it is modelled as `Int`.
-/

namespace Fbinfogrid

/-- A pixel coordinate, as in Go's `image.Point`. -/
abbrev Point := Int × Int

/-- Go's `image.Rectangle`: half-open rectangle `[minX,maxX) x [minY,maxY)`. -/
structure Rect where
  minX : Int
  minY : Int
  maxX : Int
  maxY : Int
deriving DecidableEq, Repr

/-- Go's `image.Rect(x0,y0,x1,y1)` constructor, which swaps coordinates so
that min ≤ max on each axis. -/
def imageRect (x0 y0 x1 y1 : Int) : Rect :=
  let xs := if x1 < x0 then (x1, x0) else (x0, x1)
  let ys := if y1 < y0 then (y1, y0) else (y0, y1)
  ⟨xs.1, ys.1, xs.2, ys.2⟩

/-- Membership of a point in a rectangle (`image.Point.In`). -/
def Rect.memB (r : Rect) (p : Point) : Bool :=
  decide (r.minX ≤ p.1) && decide (p.1 < r.maxX) &&
  decide (r.minY ≤ p.2) && decide (p.2 < r.maxY)

/-- The render function bound to a cell by `prepareCell` (the Go code stores
a function pointer; the variants are closed, so we use a tag). -/
inductive RenderFn
  | drawCarousel
  | drawTime
  | drawText
  | drawIsAlive
  | drawLocalImage
  | drawURLImage
deriving DecidableEq, Repr

/-- Go `CellT` (the pointed-to struct).  Exported fields come from JSON;
the lower-case fields are internal, filled in by `prepareCell`.  The
`picture` buffer is represented by its bounds (`pictureBounds`), which is
all the claims need; the `font` handle is external and omitted. -/
structure CellT where
  Row : Int := 0
  Col : Int := 0
  Rowspan : Int := 0
  Colspan : Int := 0
  RefreshSecs : Int := 0
  CellType : String := ""
  Source : String := ""
  Text : String := ""
  Sources : List String := []
  FontPts : Int := 0
  Scaling : String := ""
  fn : Option RenderFn := none
  format : String := ""
  currentSrcIx : Int := 0
  positionRect : Rect := ⟨0, 0, 0, 0⟩
  pictureBounds : Rect := ⟨0, 0, 0, 0⟩
deriving DecidableEq, Repr

/-- Go `PageT` (the pointed-to struct).  `cellWidth`/`cellHeight` are the
internal fields computed in `main`; the parsed `font` handle is external
and omitted. -/
structure PageT where
  Name : String := ""
  Rows : Int := 1
  Cols : Int := 1
  Cells : List CellT := []
  FontFile : String := ""
  DurationMins : Int := 0
  cellWidth : Int := 0
  cellHeight : Int := 0
deriving DecidableEq, Repr

/-- Go `strings.Split(s, ":")[0]`: the text before the first colon
(`strings.Split` of any string yields at least one element). -/
def splitHeadColon (s : String) : String := (s.splitOn ":").headD ""

/-- `prepareCell(page, cell)` from `fbinfogrid.go`.  The Go function mutates
the cell through its pointer and aborts the process on bad configuration
(`log.Fatalf` for an unknown cell type, `panic` for `isalive` with
`RefreshSecs == 0`); we return the updated cell, with `.error` for the two
abort paths.  `hostname` stands for the value returned by `os.Hostname()`. -/
def prepareCell (page : PageT) (hostname : String) (cell : CellT) : Except String CellT :=
  let topLeftX := (cell.Col - 1) * page.cellWidth
  let topLeftY := (cell.Row - 1) * page.cellHeight
  let rowspan := if cell.Rowspan = 0 then 1 else cell.Rowspan
  let colspan := if cell.Colspan = 0 then 1 else cell.Colspan
  let placed : CellT := { cell with
    Rowspan := rowspan
    Colspan := colspan
    positionRect := imageRect topLeftX topLeftY
      (topLeftX + page.cellWidth * colspan) (topLeftY + page.cellHeight * rowspan)
    pictureBounds := imageRect 0 0 (page.cellWidth * colspan) (page.cellHeight * rowspan) }
  match cell.CellType with
  | "carousel" => .ok { placed with currentSrcIx := -1, fn := some .drawCarousel }
  | "datemonth" =>
    .ok { placed with FontPts := if cell.FontPts = 0 then 80 else cell.FontPts,
                      format := "2 Jan", fn := some .drawTime }
  | "day" =>
    .ok { placed with FontPts := if cell.FontPts = 0 then 80 else cell.FontPts,
                      format := "Mon", fn := some .drawTime }
  | "daydatemonth" =>
    .ok { placed with FontPts := if cell.FontPts = 0 then 80 else cell.FontPts,
                      format := "Mon 2 Jan", fn := some .drawTime }
  | "hostname" =>
    .ok { placed with FontPts := if cell.FontPts = 0 then 80 else cell.FontPts,
                      Text := hostname, fn := some .drawText }
  | "isalive" =>
    if cell.RefreshSecs = 0 then
      .error "Must set refreshsecs for cell type isalive"
    else
      .ok { placed with FontPts := if cell.FontPts = 0 then 60 else cell.FontPts,
                        Text := if cell.Text = "" then splitHeadColon cell.Source else cell.Text,
                        fn := some .drawIsAlive }
  | "localimage" => .ok { placed with fn := some .drawLocalImage }
  | "text" =>
    .ok { placed with FontPts := if cell.FontPts = 0 then 80 else cell.FontPts,
                      fn := some .drawText }
  | "time" =>
    .ok { placed with FontPts := if cell.FontPts = 0 then 128 else cell.FontPts,
                      format := "15:04", fn := some .drawTime }
  | "urlimage" => .ok { placed with fn := some .drawURLImage }
  | _ => .error "ERROR: Unknown cell type"

/-- The cell type tags `prepareCell`'s switch recognises. -/
def knownCellTypes : List String :=
  ["carousel", "datemonth", "day", "daydatemonth", "hostname",
   "isalive", "localimage", "text", "time", "urlimage"]

/-! ## Scheduler: `startOrExecute` and the per-cell goroutine -/

/-- How a call to `startOrExecute` ends. -/
inductive StartOutcome
  | oneShot
  | recurring
  | panicked
deriving DecidableEq, Repr

/-- What a call to `startOrExecute` did before returning (or panicking):
how many synchronous invocations of `cell.fn` it made in the caller,
whether it spawned the ticker goroutine, whether the returned `stop`
channel is non-nil, the `time.NewTicker` period in seconds (if one was
made), and how much it added to the wait group. -/
structure StartResult where
  syncRenders : Nat
  outcome : StartOutcome
  spawned : Bool
  stopHandle : Bool
  tickerPeriodSecs : Option Int
  wgAdded : Nat
deriving DecidableEq, Repr

/-- `time.NewTicker(d)` panics unless `d > 0`. -/
def newTickerOk (secs : Int) : Bool := decide (0 < secs)

/-- `startOrExecute(wg, updateMu, cell)` from `fbinfogrid.go`.  Only
`cell.RefreshSecs` decides the control flow: `0` takes the one-shot
branch; otherwise the function renders once, constructs a ticker of
period `RefreshSecs` seconds (panicking when that period is non-positive),
spawns the looping goroutine, does `wg.Add(1)` and returns the `stop`
channel. -/
def startOrExecute (refreshSecs : Int) : StartResult :=
  if refreshSecs = 0 then
    { syncRenders := 1, outcome := .oneShot, spawned := false,
      stopHandle := false, tickerPeriodSecs := none, wgAdded := 0 }
  else if newTickerOk refreshSecs then
    { syncRenders := 1, outcome := .recurring, spawned := true,
      stopHandle := true, tickerPeriodSecs := some refreshSecs, wgAdded := 1 }
  else
    { syncRenders := 1, outcome := .panicked, spawned := false,
      stopHandle := false, tickerPeriodSecs := none, wgAdded := 0 }

/-- A wake-up of the goroutine's `select`: either the `stop` channel or the
ticker channel fired. -/
inductive Sig
  | tick
  | stop
deriving DecidableEq, Repr

/-- The ticker goroutine's loop, driven by the sequence of `select` wake-ups
it observes.  `none` means the loop is still running after consuming the
whole sequence; `some (n, done)` means it returned having invoked
`cell.fn` `n` more times, with `done = true` iff `wg.Done()` was called
before returning (the `stop` case is the only exit, and it always calls
`wg.Done()` first). -/
def taskLoop : List Sig → Option (Nat × Bool)
  | [] => none
  | .stop :: _ => some (0, true)
  | .tick :: rest =>
    match taskLoop rest with
    | none => none
    | some (n, done) => some (n + 1, done)

/-! ## Compositor: the shared surface, the HTTP mirror and `render` -/

/-- An in-memory image (`image.NRGBA`): a bounds rectangle and a pixel
function.  Pixel values are abstract (`Nat`). -/
structure Img where
  bounds : Rect
  pix : Point → Nat

/-- Go's `draw.Draw(dst, r, src, sp, draw.Src)`: destination point `p`
inside `r` receives source point `sp + (p - r.Min)`; the copy is clipped
to the destination's and the source's bounds; every other destination
pixel is untouched. -/
def drawDraw (dst : Img) (r : Rect) (src : Img) (sp : Point) : Img :=
  { bounds := dst.bounds
    pix := fun p =>
      let q : Point := (sp.1 + (p.1 - r.minX), sp.2 + (p.2 - r.minY))
      if r.memB p && dst.bounds.memB p && src.bounds.memB q then src.pix q else dst.pix p }

/-- The framebuffer library's `fb.DrawImage(x, y, src)`: draw `src`'s
bounds-origin at `(x, y)`, clipped to the framebuffer. -/
def fbDrawImage (fbimg : Img) (x y : Int) (src : Img) : Img :=
  { bounds := fbimg.bounds
    pix := fun p =>
      let q : Point := (src.bounds.minX + (p.1 - x), src.bounds.minY + (p.2 - y))
      if fbimg.bounds.memB p && src.bounds.memB q then src.pix q else fbimg.pix p }

/-- The compositor's shared state: the framebuffer and the optional HTTP
mirror (`fbcopy`).  In Go, mirroring is enabled iff the `fbcopy` pointer
is non-nil (set when the `-http` flag is non-zero). -/
structure FBState where
  fb : Img
  fbcopyEnabled : Bool
  fbcopy : Img

/-- `render(destRect, srcImg)` from `fbinfogrid.go`: always draw into the
framebuffer at the rectangle's top-left; when the mirror exists, make the
identical `draw.Draw(fbcopy, destRect, srcImg, image.Point{0,0}, draw.Src)`
copy under the mirror lock. -/
def render (st : FBState) (destRect : Rect) (srcImg : Img) : FBState :=
  { fb := fbDrawImage st.fb destRect.minX destRect.minY srcImg
    fbcopyEnabled := st.fbcopyEnabled
    fbcopy :=
      if st.fbcopyEnabled then drawDraw st.fbcopy destRect srcImg (0, 0) else st.fbcopy }

/-! ## Image renderers and their error handling -/

/-- How one render tick of an image cell ends. -/
inductive TickOutcome
  | published
  | skippedLogged
  | skippedSilent
  | fatal
deriving DecidableEq, Repr

/-- Raw bytes delivered by `os.Open` or `http.Get`, abstracted. -/
abbrev Bytes := Nat

/-- `drawImage(img, cell, updateMu)` from `fbinfogrid.go`: decode the
bytes; on decode failure log a warning and return without publishing
(the state is unchanged); on success scale and `render` into the cell's
rectangle.  `decode` abstracts `image.Decode` composed with the selected
`imaging` scaling step, both external. -/
def drawImage (st : FBState) (cell : CellT) (decode : Bytes → Except String Img)
    (bytes : Bytes) : TickOutcome × FBState :=
  match decode bytes with
  | .error _ => (.skippedLogged, st)
  | .ok img => (.published, render st cell.positionRect img)

/-- `drawLocalImage` from `fbinfogrid.go`: `os.Open(cell.Source)` failure
is a `panic` (fatal); otherwise hand the bytes to `drawImage`. -/
def drawLocalImage (st : FBState) (cell : CellT) (openRes : Except String Bytes)
    (decode : Bytes → Except String Img) : TickOutcome × FBState :=
  match openRes with
  | .error _ => (.fatal, st)
  | .ok b => drawImage st cell decode b

/-- `drawURLImage` from `fbinfogrid.go`: an `http.Get(cell.Source)` failure
is ignored (`// ignore errors here`) — no log, no publish; otherwise hand
the body to `drawImage`. -/
def drawURLImage (st : FBState) (cell : CellT) (fetchRes : Except String Bytes)
    (decode : Bytes → Except String Img) : TickOutcome × FBState :=
  match fetchRes with
  | .error _ => (.skippedSilent, st)
  | .ok b => drawImage st cell decode b

/-! ## Carousel cursor -/

/-- The cursor update at the top of `drawCarousel`:
`if cell.currentSrcIx++; cell.currentSrcIx == len(cell.Sources) { cell.currentSrcIx = 0 }`. -/
def carouselAdvance (n : Nat) (ix : Int) : Int :=
  let ix' := ix + 1
  if ix' = n then 0 else ix'

/-- The carousel cursor after `k` ticks, starting from the `-1` that
`prepareCell` stores (the cell struct is shared by pointer, so the cursor
persists across ticks). -/
def carouselIx (n : Nat) : Nat → Int
  | 0 => -1
  | k + 1 => carouselAdvance n (carouselIx n k)

/-- The source `drawCarousel` opens on tick `k` (`cell.Sources[cell.currentSrcIx]`
after the advance); `none` models the index-out-of-range panic. -/
def carouselShown (srcs : List String) (k : Nat) : Option String :=
  let ix := carouselIx srcs.length k
  if 0 ≤ ix then srcs[ix.toNat]? else none

/-! ## Page rotation: the `main` loop as an event trace -/

/-- Observable steps of the `main` loop.  `prepare`/`render`/`spawn` carry
the page index and the cell's position in the page's cell list; `render`
is the synchronous invocation inside `startOrExecute`; `signal` is the
blocking `s <- true` send to one collected stopper; `waitAll` is
`wg.Wait()`; `abort` is a fatal exit during preparation or `NewTicker`. -/
inductive Event
  | blank (pageIx : Nat)
  | prepare (pageIx : Nat) (cellIx : Nat)
  | render (pageIx : Nat) (cellIx : Nat)
  | spawn (pageIx : Nat) (cellIx : Nat)
  | sleep (mins : Int)
  | signal (cellIx : Nat)
  | waitAll
  | abort
deriving DecidableEq, Repr

/-- The `for _, cell := range page.Cells` loop in `main`: prepare each cell,
start or execute it, and collect the non-nil stoppers in order.  Returns
the events, the cell indices whose `startOrExecute` returned a stopper,
and whether the process died (preparation error or ticker panic). -/
def runCells (hostname : String) (page : PageT) (pageIx : Nat) :
    Nat → List CellT → List Event × List Nat × Bool
  | _, [] => ([], [], false)
  | i, c :: rest =>
    match prepareCell page hostname c with
    | .error _ => ([.prepare pageIx i, .abort], [], true)
    | .ok c' =>
      let r := startOrExecute c'.RefreshSecs
      if r.outcome = .panicked then
        ([.prepare pageIx i, .render pageIx i, .abort], [], true)
      else
        let (evs, stops, aborted) := runCells hostname page pageIx (i + 1) rest
        (([.prepare pageIx i, .render pageIx i] ++
            (if r.spawned then [.spawn pageIx i] else [])) ++ evs,
         (if r.stopHandle then [i] else []) ++ stops, aborted)

/-- The stoppers `main` collects for a page: exactly the cells whose
`startOrExecute` (on the prepared cell) returns a non-nil stop channel. -/
def stopsExpected (hostname : String) (page : PageT) : Nat → List CellT → List Nat
  | _, [] => []
  | i, c :: rest =>
    (match prepareCell page hostname c with
     | .error _ => []
     | .ok c' => if (startOrExecute c'.RefreshSecs).stopHandle then [i] else []) ++
    stopsExpected hostname page (i + 1) rest

/-- Page activation in `main`: `page.cellWidth = fb.Xres / page.Cols` and
`page.cellHeight = fb.Yres / page.Rows`, Go's truncating `int` division. -/
def activate (xres yres : Int) (page : PageT) : PageT :=
  { page with cellWidth := Int.tdiv xres page.Cols,
              cellHeight := Int.tdiv yres page.Rows }

/-- One iteration of the `main` loop body for the page at `pageIx`: blank
the screen, size the cells via `activate`, prepare and start every cell,
then — when there is more than one page and the page sets a duration —
sleep and signal every stopper; finally `wg.Wait()`.  Returns the events
and whether the process died. -/
def pageBody (hostname : String) (xres yres : Int) (numPages : Nat) (pageIx : Nat)
    (page : PageT) : List Event × Bool :=
  let page := activate xres yres page
  let (evs, stops, aborted) := runCells hostname page pageIx 0 page.Cells
  if aborted then (Event.blank pageIx :: evs, true)
  else
    ((Event.blank pageIx :: evs ++
       (if 1 < numPages ∧ 0 < page.DurationMins then
         Event.sleep page.DurationMins :: stops.map Event.signal
        else [])) ++ [Event.waitAll], false)

/-- `config.currentPageIx++; if currentPageIx == len(Pages) { currentPageIx = 0 }`. -/
def advanceIx (len ix : Nat) : Nat := if ix + 1 = len then 0 else ix + 1

/-- The trace of `fuel` iterations of the `main` loop, starting with the
page at index `ix` (the loop's first iteration runs page 0: the index is
initialised to `-1` and pre-incremented).  A fatal exit ends the trace. -/
def mainTrace (hostname : String) (xres yres : Int) (pages : List PageT) :
    Nat → Nat → List Event
  | _, 0 => []
  | ix, fuel + 1 =>
    match pages[ix]? with
    | none => []
    | some p =>
      let (evs, aborted) := pageBody hostname xres yres pages.length ix p
      if aborted then evs
      else evs ++ mainTrace hostname xres yres pages (advanceIx pages.length ix) fuel

/-! ## Theorems -/

/-- The goroutine loop never returns while it only sees ticker ticks. -/
lemma taskLoop_ticks (n : Nat) : taskLoop (List.replicate n .tick) = none := by
  induction n with
  | zero => rfl
  | succ n ih => simp [List.replicate_succ, taskLoop, ih]

/-- After `n` ticks and then a stop signal, the goroutine loop has rendered
`n` more times and has called `wg.Done()`. -/
lemma taskLoop_ticks_stop (n : Nat) :
    taskLoop (List.replicate n .tick ++ [.stop]) = some (n, true) := by
  induction n with
  | zero => rfl
  | succ n ih => simp [List.replicate_succ, taskLoop, ih]

/-- C1: for a cell with `RefreshSecs = 0`, `startOrExecute` invokes the
cell's render function exactly once, synchronously in the caller, spawns
no goroutine, and returns a nil stop channel. -/
theorem startOrExecute_zero_oneShot (cell : CellT) (h : cell.RefreshSecs = 0) :
    (startOrExecute cell.RefreshSecs).syncRenders = 1 ∧
    (startOrExecute cell.RefreshSecs).outcome = .oneShot ∧
    (startOrExecute cell.RefreshSecs).spawned = false ∧
    (startOrExecute cell.RefreshSecs).stopHandle = false ∧
    (startOrExecute cell.RefreshSecs).wgAdded = 0 := by
  simp [startOrExecute, h]

/-- Witness for C1 at a concrete cell (the default cell has `RefreshSecs = 0`). -/
theorem startOrExecute_zero_oneShot_witness :
    (startOrExecute (CellT.RefreshSecs {})).syncRenders = 1 ∧
    (startOrExecute (CellT.RefreshSecs {})).outcome = .oneShot ∧
    (startOrExecute (CellT.RefreshSecs {})).spawned = false ∧
    (startOrExecute (CellT.RefreshSecs {})).stopHandle = false ∧
    (startOrExecute (CellT.RefreshSecs {})).wgAdded = 0 :=
  startOrExecute_zero_oneShot {} rfl

/-- C2: for a cell with `RefreshSecs = N > 0`, `startOrExecute` renders once
immediately in the caller, spawns one goroutine driven by a ticker of
period `N` seconds, adds one unit to the wait group and returns a non-nil
stop channel; the goroutine renders once per ticker tick, runs for ever if
never signalled, and on a stop signal calls `wg.Done()` and terminates. -/
theorem startOrExecute_recurring (cell : CellT) (h : 0 < cell.RefreshSecs) :
    (startOrExecute cell.RefreshSecs).syncRenders = 1 ∧
    (startOrExecute cell.RefreshSecs).outcome = .recurring ∧
    (startOrExecute cell.RefreshSecs).spawned = true ∧
    (startOrExecute cell.RefreshSecs).stopHandle = true ∧
    (startOrExecute cell.RefreshSecs).tickerPeriodSecs = some cell.RefreshSecs ∧
    (startOrExecute cell.RefreshSecs).wgAdded = 1 ∧
    (∀ n : Nat, taskLoop (List.replicate n .tick) = none) ∧
    (∀ n : Nat, taskLoop (List.replicate n .tick ++ [.stop]) = some (n, true)) := by
  have hne : cell.RefreshSecs ≠ 0 := by omega
  refine ⟨?_, ?_, ?_, ?_, ?_, ?_, taskLoop_ticks, taskLoop_ticks_stop⟩ <;>
    simp [startOrExecute, hne, newTickerOk, h]

/-- Witness for C2 at a cell with a 5-second refresh, observing 3 ticks
and then cancellation. -/
theorem startOrExecute_recurring_witness :
    (startOrExecute (CellT.RefreshSecs { RefreshSecs := 5 })).syncRenders = 1 ∧
    (startOrExecute (CellT.RefreshSecs { RefreshSecs := 5 })).outcome = .recurring ∧
    (startOrExecute (CellT.RefreshSecs { RefreshSecs := 5 })).stopHandle = true ∧
    (startOrExecute (CellT.RefreshSecs { RefreshSecs := 5 })).tickerPeriodSecs = some 5 ∧
    taskLoop (List.replicate 3 .tick) = none ∧
    taskLoop (List.replicate 3 .tick ++ [.stop]) = some (3, true) := by
  have h := startOrExecute_recurring { RefreshSecs := 5 } (by decide)
  exact ⟨h.1, h.2.1, h.2.2.2.1, h.2.2.2.2.1, h.2.2.2.2.2.2.1 3, h.2.2.2.2.2.2.2 3⟩

/-- C10: a negative `RefreshSecs` is not treated as one-shot: `startOrExecute`
renders once and then dies constructing `time.NewTicker` with a
non-positive period; the call avoids the panic exactly when
`RefreshSecs ≥ 0`. -/
theorem startOrExecute_negative_panics (cell : CellT) (h : cell.RefreshSecs < 0) :
    (startOrExecute cell.RefreshSecs).syncRenders = 1 ∧
    (startOrExecute cell.RefreshSecs).outcome = .panicked ∧
    (∀ r : Int, (startOrExecute r).outcome ≠ .panicked ↔ 0 ≤ r) := by
  have hne : cell.RefreshSecs ≠ 0 := by omega
  have hnt : newTickerOk cell.RefreshSecs = false := by
    simp [newTickerOk]; omega
  refine ⟨by simp [startOrExecute, hne, hnt], by simp [startOrExecute, hne, hnt], ?_⟩
  intro r
  rcases lt_trichotomy r 0 with hr | hr | hr
  · have h1 : r ≠ 0 := by omega
    have h2 : newTickerOk r = false := by simp [newTickerOk]; omega
    simp only [startOrExecute, h1, h2, if_false, if_neg h1, Bool.false_eq_true]
    simp
    omega
  · subst hr; simp [startOrExecute]
  · have h1 : r ≠ 0 := by omega
    have h2 : newTickerOk r = true := by simp [newTickerOk]; omega
    simp only [startOrExecute, h1, h2, if_true, if_neg h1]
    simp
    omega

/-- Witness for C10 at `RefreshSecs = -3`. -/
theorem startOrExecute_negative_panics_witness :
    (startOrExecute (CellT.RefreshSecs { RefreshSecs := -3 })).syncRenders = 1 ∧
    (startOrExecute (CellT.RefreshSecs { RefreshSecs := -3 })).outcome = .panicked ∧
    ((startOrExecute (7 : Int)).outcome ≠ .panicked ↔ (0 : Int) ≤ 7) := by
  have h := startOrExecute_negative_panics { RefreshSecs := -3 } (by decide)
  exact ⟨h.1, h.2.1, h.2.2 7⟩

/-- The carousel cursor stays in `[0, n)` from the first tick onwards. -/
lemma carouselIx_bounds (n : Nat) (hn : 0 < n) :
    ∀ k : Nat, 1 ≤ k → 0 ≤ carouselIx n k ∧ carouselIx n k < n := by
  intro k hk
  induction k with
  | zero => omega
  | succ k ih =>
    rcases Nat.eq_zero_or_pos k with rfl | hkpos
    · simp only [carouselIx, carouselAdvance]
      split <;> omega
    · obtain ⟨h0, h1⟩ := ih hkpos
      simp only [carouselIx, carouselAdvance]
      split <;> omega

/-- C4: `prepareCell` initialises a carousel cell's cursor to `-1`
("before first"); each `drawCarousel` tick advances the cursor circularly
before reading, so over sources `[a, b, c]` tick 1 opens `a`, tick 2 `b`,
tick 3 `c`, tick 4 wraps to `a`; and after every tick `k ≥ 1` the cursor
satisfies `0 ≤ cursor < 3`, the length of the source list. -/
theorem carousel_cursor (page : PageT) (hostname : String) (cell c' : CellT)
    (hty : cell.CellType = "carousel")
    (hok : prepareCell page hostname cell = .ok c')
    (a b c : String) (k : Nat) (hk : 1 ≤ k) :
    c'.currentSrcIx = -1 ∧
    carouselShown [a, b, c] 1 = some a ∧
    carouselShown [a, b, c] 2 = some b ∧
    carouselShown [a, b, c] 3 = some c ∧
    carouselShown [a, b, c] 4 = some a ∧
    0 ≤ carouselIx 3 k ∧ carouselIx 3 k < 3 := by
  obtain ⟨h0, h1⟩ := carouselIx_bounds 3 (by omega) k hk
  refine ⟨?_, ?_, ?_, ?_, ?_, h0, by exact_mod_cast h1⟩
  · simp only [prepareCell, hty] at hok
    simp only [Except.ok.injEq] at hok
    rw [← hok]
  · simp [carouselShown, carouselIx, carouselAdvance]
  · simp [carouselShown, carouselIx, carouselAdvance]
  · simp [carouselShown, carouselIx, carouselAdvance]
  · simp [carouselShown, carouselIx, carouselAdvance]

/-- Witness for C4: a concrete carousel cell prepared on the default page,
observed at tick 2. -/
theorem carousel_cursor_witness :
    (({ CellType := "carousel", Sources := ["a", "b", "c"], Rowspan := 1, Colspan := 1,
        currentSrcIx := -1, fn := some .drawCarousel } : CellT)).currentSrcIx = -1 ∧
    carouselShown ["a", "b", "c"] 1 = some "a" ∧
    carouselShown ["a", "b", "c"] 2 = some "b" ∧
    carouselShown ["a", "b", "c"] 3 = some "c" ∧
    carouselShown ["a", "b", "c"] 4 = some "a" ∧
    0 ≤ carouselIx 3 2 ∧ carouselIx 3 2 < 3 :=
  carousel_cursor {} "h" { CellType := "carousel", Sources := ["a", "b", "c"] } _
    rfl rfl "a" "b" "c" 2 (by decide)

/-- C5 counterexample: `prepareCell` does not pre-validate type-specific
required fields — a carousel cell with an empty source list, a text cell
with no literal text and a local-image cell with no source all pass
preparation without aborting (their missing fields only surface later, at
render time). -/
theorem prepareCell_no_field_validation :
    (prepareCell {} "h" ({ CellType := "carousel", Sources := [] } : CellT)).isOk = true ∧
    (prepareCell {} "h" ({ CellType := "text", Text := "" } : CellT)).isOk = true ∧
    (prepareCell {} "h" ({ CellType := "localimage", Source := "" } : CellT)).isOk = true ∧
    (prepareCell {} "h" ({ CellType := "urlimage", Source := "" } : CellT)).isOk = true := by
  refine ⟨rfl, rfl, rfl, rfl⟩

/-- C5 (amended): preparation fails fatally exactly for an unknown cell
type tag, or for an `isalive` cell with refresh interval 0; missing
type-specific required fields are not checked at preparation, and a
well-formed cell prepares without aborting. -/
theorem prepareCell_fatal_iff (page : PageT) (hostname : String) (cell : CellT) :
    (prepareCell page hostname cell).isOk = false ↔
      (cell.CellType ∉ knownCellTypes ∨
        (cell.CellType = "isalive" ∧ cell.RefreshSecs = 0)) := by
  unfold prepareCell
  repeat' split
  all_goals simp_all [knownCellTypes, Except.isOk, Except.toBool]

/-- Witness for the amended C5 at a concrete cell with an unknown type tag. -/
theorem prepareCell_fatal_iff_witness :
    (prepareCell {} "h" ({ CellType := "bogus" } : CellT)).isOk = false ↔
      ((({ CellType := "bogus" } : CellT)).CellType ∉ knownCellTypes ∨
        ((({ CellType := "bogus" } : CellT)).CellType = "isalive" ∧
          (({ CellType := "bogus" } : CellT)).RefreshSecs = 0)) :=
  prepareCell_fatal_iff {} "h" { CellType := "bogus" }

/-- C9 counterexample: with `FontPts` unset, a `day` cell and a plain
`text` cell both default to 80 points — the date/day default is *equal*
to, not larger than, the plain-text default. -/
theorem fontPts_day_equals_text :
    (prepareCell {} "h" ({ CellType := "day" } : CellT)).toOption.map CellT.FontPts =
      some 80 ∧
    (prepareCell {} "h" ({ CellType := "text" } : CellT)).toOption.map CellT.FontPts =
      some 80 ∧
    ¬ ((80 : Int) > 80) := by
  refine ⟨rfl, rfl, by omega⟩

/-- C9 (amended): when a cell's `FontPts` is unset (zero) the preparer
assigns per-type defaults: the date/day variants (`day`, `datemonth`,
`daydatemonth`) default to 80 points, the *same* size as plain `text`
(and `hostname`) cells, `isalive` defaults to 60, and the clock (`time`)
defaults to 128, strictly the largest default of all cell types. -/
theorem fontPts_defaults (page : PageT) (hostname : String) (cell c' : CellT)
    (h0 : cell.FontPts = 0) :
    (cell.CellType = "day" → prepareCell page hostname cell = .ok c' → c'.FontPts = 80) ∧
    (cell.CellType = "datemonth" → prepareCell page hostname cell = .ok c' → c'.FontPts = 80) ∧
    (cell.CellType = "daydatemonth" → prepareCell page hostname cell = .ok c' → c'.FontPts = 80) ∧
    (cell.CellType = "text" → prepareCell page hostname cell = .ok c' → c'.FontPts = 80) ∧
    (cell.CellType = "hostname" → prepareCell page hostname cell = .ok c' → c'.FontPts = 80) ∧
    (cell.CellType = "isalive" → prepareCell page hostname cell = .ok c' → c'.FontPts = 60) ∧
    (cell.CellType = "time" → prepareCell page hostname cell = .ok c' → c'.FontPts = 128) ∧
    ((80 : Int) < 128 ∧ (60 : Int) < 128 ∧ ¬ ((80 : Int) > 80)) := by
  refine ⟨?_, ?_, ?_, ?_, ?_, ?_, ?_, by omega, by omega, by omega⟩ <;>
    intro hty hok <;> unfold prepareCell at hok <;> rw [hty] at hok
  case _ => simp [h0] at hok; rw [← hok]
  case _ => simp [h0] at hok; rw [← hok]
  case _ => simp [h0] at hok; rw [← hok]
  case _ => simp [h0] at hok; rw [← hok]
  case _ => simp [h0] at hok; rw [← hok]
  case _ =>
    by_cases hr : cell.RefreshSecs = 0
    · simp [hr] at hok
    · simp [hr, h0] at hok; rw [← hok]
  case _ => simp [h0] at hok; rw [← hok]

/-- Witness for C9 at a concrete `time` cell with `FontPts` unset. -/
theorem fontPts_defaults_witness :
    (({ CellType := "time", Rowspan := 1, Colspan := 1, FontPts := 128,
        format := "15:04", fn := some .drawTime } : CellT)).FontPts = 128 :=
  (fontPts_defaults {} "h" { CellType := "time" } _ rfl).2.2.2.2.2.2.1 rfl rfl

/-- `image.Rect` does not swap coordinates when they are already ordered. -/
lemma imageRect_of_le (x0 y0 x1 y1 : Int) (hx : x0 ≤ x1) (hy : y0 ≤ y1) :
    imageRect x0 y0 x1 y1 = ⟨x0, y0, x1, y1⟩ := by
  unfold imageRect
  simp [not_lt.mpr hx, not_lt.mpr hy]

/-- Every successful `prepareCell` assigns the spans (defaulted to 1 when
zero), the position rectangle and the picture bounds by the same formulas,
whatever the cell type. -/
lemma prepareCell_ok_geometry (page : PageT) (hostname : String) (cell c' : CellT)
    (hok : prepareCell page hostname cell = .ok c') :
    c'.Rowspan = (if cell.Rowspan = 0 then 1 else cell.Rowspan) ∧
    c'.Colspan = (if cell.Colspan = 0 then 1 else cell.Colspan) ∧
    c'.positionRect = imageRect ((cell.Col - 1) * page.cellWidth) ((cell.Row - 1) * page.cellHeight)
      ((cell.Col - 1) * page.cellWidth + page.cellWidth * (if cell.Colspan = 0 then 1 else cell.Colspan))
      ((cell.Row - 1) * page.cellHeight + page.cellHeight * (if cell.Rowspan = 0 then 1 else cell.Rowspan)) ∧
    c'.pictureBounds = imageRect 0 0
      (page.cellWidth * (if cell.Colspan = 0 then 1 else cell.Colspan))
      (page.cellHeight * (if cell.Rowspan = 0 then 1 else cell.Rowspan)) := by
  unfold prepareCell at hok
  repeat' split at hok
  all_goals cases hok
  all_goals simp_all

/-- C7: at activation `cellWidth = Xres / Cols` and `cellHeight = Yres / Rows`
by truncating integer division; a prepared cell's spans default to 1 when
unset, its rectangle on the surface is
`((col-1)*cellWidth, (row-1)*cellHeight)` sized
`(cellWidth*colspan, cellHeight*rowspan)`, and its private picture buffer
has exactly that size. -/
theorem cell_geometry (xres yres : Int) (page : PageT) (hostname : String)
    (cell c' : CellT)
    (hw : 0 ≤ (activate xres yres page).cellWidth)
    (hh : 0 ≤ (activate xres yres page).cellHeight)
    (hrs : 0 ≤ cell.Rowspan) (hcs : 0 ≤ cell.Colspan)
    (hok : prepareCell (activate xres yres page) hostname cell = .ok c') :
    (activate xres yres page).cellWidth = Int.tdiv xres page.Cols ∧
    (activate xres yres page).cellHeight = Int.tdiv yres page.Rows ∧
    c'.Rowspan = (if cell.Rowspan = 0 then 1 else cell.Rowspan) ∧
    c'.Colspan = (if cell.Colspan = 0 then 1 else cell.Colspan) ∧
    c'.positionRect = ⟨(cell.Col - 1) * (activate xres yres page).cellWidth,
        (cell.Row - 1) * (activate xres yres page).cellHeight,
        (cell.Col - 1) * (activate xres yres page).cellWidth +
          (activate xres yres page).cellWidth * c'.Colspan,
        (cell.Row - 1) * (activate xres yres page).cellHeight +
          (activate xres yres page).cellHeight * c'.Rowspan⟩ ∧
    c'.pictureBounds = ⟨0, 0, (activate xres yres page).cellWidth * c'.Colspan,
        (activate xres yres page).cellHeight * c'.Rowspan⟩ := by
  obtain ⟨hr, hc, hpos, hpic⟩ := prepareCell_ok_geometry _ _ _ _ hok
  have hcs' : (0 : Int) ≤ (if cell.Colspan = 0 then 1 else cell.Colspan) := by
    split <;> omega
  have hrs' : (0 : Int) ≤ (if cell.Rowspan = 0 then 1 else cell.Rowspan) := by
    split <;> omega
  have hx := mul_nonneg hw hcs'
  have hy := mul_nonneg hh hrs'
  refine ⟨rfl, rfl, hr, hc, ?_, ?_⟩
  · rw [hc, hr, hpos, imageRect_of_le]
    · exact le_add_of_nonneg_right hx
    · exact le_add_of_nonneg_right hy
  · rw [hc, hr, hpic, imageRect_of_le _ _ _ _ hx hy]

/-- Witness for C7: a 640×480 surface, a 2×3 page, and a text cell at
row 2, column 3 spanning two columns. -/
theorem cell_geometry_witness :
    (activate 640 480 { Rows := 2, Cols := 3 }).cellWidth = Int.tdiv 640 3 ∧
    (activate 640 480 { Rows := 2, Cols := 3 }).cellHeight = Int.tdiv 480 2 ∧
    (({ Row := 2, Col := 3, Rowspan := 1, Colspan := 2, CellType := "text", FontPts := 80,
        fn := some .drawText,
        positionRect := ⟨426, 240, 852, 480⟩,
        pictureBounds := ⟨0, 0, 426, 240⟩ } : CellT)).Rowspan =
      (if (0 : Int) = 0 then 1 else 0) ∧
    (({ Row := 2, Col := 3, Rowspan := 1, Colspan := 2, CellType := "text", FontPts := 80,
        fn := some .drawText,
        positionRect := ⟨426, 240, 852, 480⟩,
        pictureBounds := ⟨0, 0, 426, 240⟩ } : CellT)).Colspan =
      (if (2 : Int) = 0 then 1 else 2) ∧
    (({ Row := 2, Col := 3, Rowspan := 1, Colspan := 2, CellType := "text", FontPts := 80,
        fn := some .drawText,
        positionRect := ⟨426, 240, 852, 480⟩,
        pictureBounds := ⟨0, 0, 426, 240⟩ } : CellT)).positionRect =
      ⟨((3 : Int) - 1) * (activate 640 480 { Rows := 2, Cols := 3 }).cellWidth,
       ((2 : Int) - 1) * (activate 640 480 { Rows := 2, Cols := 3 }).cellHeight,
       ((3 : Int) - 1) * (activate 640 480 { Rows := 2, Cols := 3 }).cellWidth +
         (activate 640 480 { Rows := 2, Cols := 3 }).cellWidth * 2,
       ((2 : Int) - 1) * (activate 640 480 { Rows := 2, Cols := 3 }).cellHeight +
         (activate 640 480 { Rows := 2, Cols := 3 }).cellHeight * 1⟩ ∧
    (({ Row := 2, Col := 3, Rowspan := 1, Colspan := 2, CellType := "text", FontPts := 80,
        fn := some .drawText,
        positionRect := ⟨426, 240, 852, 480⟩,
        pictureBounds := ⟨0, 0, 426, 240⟩ } : CellT)).pictureBounds =
      ⟨0, 0, (activate 640 480 { Rows := 2, Cols := 3 }).cellWidth * 2,
       (activate 640 480 { Rows := 2, Cols := 3 }).cellHeight * 1⟩ :=
  cell_geometry 640 480 { Rows := 2, Cols := 3 } "h"
    { CellType := "text", Row := 2, Col := 3, Colspan := 2 } _
    (by decide) (by decide) (by decide) (by decide) rfl

/-- C6 counterexample: error handling does not split remote/local the way
the claim says.  A local image that opens but fails to decode is *not*
fatal — the shared `drawImage` logs a warning and skips the tick — and a
remote fetch failure is skipped *silently* (`// ignore errors here`),
without the logged warning the claim requires. -/
theorem image_error_asymmetry_counterexample :
    (drawLocalImage ⟨⟨⟨0, 0, 4, 4⟩, fun _ => 0⟩, false, ⟨⟨0, 0, 4, 4⟩, fun _ => 0⟩⟩
        {} (.ok 0) (fun _ => .error "bad data")).1 = .skippedLogged ∧
    (drawLocalImage ⟨⟨⟨0, 0, 4, 4⟩, fun _ => 0⟩, false, ⟨⟨0, 0, 4, 4⟩, fun _ => 0⟩⟩
        {} (.ok 0) (fun _ => .error "bad data")).1 ≠ .fatal ∧
    (drawURLImage ⟨⟨⟨0, 0, 4, 4⟩, fun _ => 0⟩, false, ⟨⟨0, 0, 4, 4⟩, fun _ => 0⟩⟩
        {} (.error "connection refused") (fun _ => .ok ⟨⟨0, 0, 4, 4⟩, fun _ => 1⟩)).1 =
      .skippedSilent := by
  exact ⟨rfl, by decide, rfl⟩

/-- C6 (amended): for a `urlimage` cell a fetch failure skips the tick
silently and a decode failure skips it with a logged warning; in both
cases nothing is published and the surfaces keep their previous content.
For a `localimage` cell only the file-open failure is fatal; a decode
failure is recovered exactly like the remote path (logged skip, no
publish), because both paths share `drawImage`. -/
theorem image_error_asymmetry (st : FBState) (cell : CellT) (b : Bytes)
    (decode : Bytes → Except String Img) (msg e e' : String) :
    (decode b = .error msg →
      drawLocalImage st cell (.ok b) decode = (.skippedLogged, st) ∧
      drawURLImage st cell (.ok b) decode = (.skippedLogged, st)) ∧
    drawURLImage st cell (.error e) decode = (.skippedSilent, st) ∧
    drawLocalImage st cell (.error e') decode = (.fatal, st) ∧
    (∀ img, decode b = .ok img →
      drawLocalImage st cell (.ok b) decode = (.published, render st cell.positionRect img) ∧
      drawURLImage st cell (.ok b) decode = (.published, render st cell.positionRect img)) := by
  refine ⟨fun hd => ?_, rfl, rfl, fun img hd => ?_⟩ <;>
    simp [drawLocalImage, drawURLImage, drawImage, hd]

/-- Witness for C6: a decode failure and a decode success at concrete
inputs. -/
theorem image_error_asymmetry_witness :
    (drawLocalImage ⟨⟨⟨0, 0, 4, 4⟩, fun _ => 5⟩, true, ⟨⟨0, 0, 4, 4⟩, fun _ => 5⟩⟩
        {} (.ok 3) (fun _ => .error "truncated") =
      (.skippedLogged, ⟨⟨⟨0, 0, 4, 4⟩, fun _ => 5⟩, true, ⟨⟨0, 0, 4, 4⟩, fun _ => 5⟩⟩)) ∧
    (drawURLImage ⟨⟨⟨0, 0, 4, 4⟩, fun _ => 5⟩, true, ⟨⟨0, 0, 4, 4⟩, fun _ => 5⟩⟩
        {} (.error "timeout") (fun _ => .error "truncated") =
      (.skippedSilent, ⟨⟨⟨0, 0, 4, 4⟩, fun _ => 5⟩, true, ⟨⟨0, 0, 4, 4⟩, fun _ => 5⟩⟩)) :=
  ⟨(image_error_asymmetry ⟨⟨⟨0, 0, 4, 4⟩, fun _ => 5⟩, true, ⟨⟨0, 0, 4, 4⟩, fun _ => 5⟩⟩
      {} 3 (fun _ => .error "truncated") "truncated" "timeout" "x").1 rfl |>.1,
   (image_error_asymmetry ⟨⟨⟨0, 0, 4, 4⟩, fun _ => 5⟩, true, ⟨⟨0, 0, 4, 4⟩, fun _ => 5⟩⟩
      {} 3 (fun _ => .error "truncated") "truncated" "timeout" "x").2.1⟩

/-- C8: `render` publishes the source pixels into the mirror at the same
destination rectangle when mirroring is enabled — a mirror pixel inside
the rectangle (and inside both relevant bounds, as `draw.Draw` clips)
receives the source pixel at the same offset, and every mirror pixel
outside the rectangle is left unchanged — and leaves the mirror entirely
unmodified when mirroring is disabled. -/
theorem render_mirror (st : FBState) (destRect : Rect) (src : Img) :
    (render st destRect src).fbcopyEnabled = st.fbcopyEnabled ∧
    (st.fbcopyEnabled = true →
      (render st destRect src).fbcopy.bounds = st.fbcopy.bounds ∧
      (∀ p : Point, destRect.memB p = true → st.fbcopy.bounds.memB p = true →
        src.bounds.memB (0 + (p.1 - destRect.minX), 0 + (p.2 - destRect.minY)) = true →
        (render st destRect src).fbcopy.pix p =
          src.pix (0 + (p.1 - destRect.minX), 0 + (p.2 - destRect.minY))) ∧
      (∀ p : Point, destRect.memB p = false →
        (render st destRect src).fbcopy.pix p = st.fbcopy.pix p)) ∧
    (st.fbcopyEnabled = false → (render st destRect src).fbcopy = st.fbcopy) := by
  refine ⟨rfl, fun he => ⟨?_, fun p h1 h2 h3 => ?_, fun p h1 => ?_⟩, fun he => ?_⟩
  · simp [render, drawDraw, he]
  · simp only [zero_add] at h3 ⊢
    simp [render, drawDraw, he, h1, h2, h3]
  · simp [render, drawDraw, he, h1]
  · simp [render, he]

/-- Witness for C8: a 2×2 source published at rectangle `[2,4)×[2,4)` of a
10×10 mirror; the pixel at `(2,2)` is copied, the pixel at `(0,0)` is not. -/
theorem render_mirror_witness :
    (render ⟨⟨⟨0, 0, 10, 10⟩, fun _ => 7⟩, true, ⟨⟨0, 0, 10, 10⟩, fun _ => 7⟩⟩
        ⟨2, 2, 4, 4⟩ ⟨⟨0, 0, 2, 2⟩, fun _ => 9⟩).fbcopy.pix (2, 2) =
      (⟨⟨0, 0, 2, 2⟩, fun _ => 9⟩ : Img).pix (0 + ((2 : Int) - 2), 0 + ((2 : Int) - 2)) ∧
    (render ⟨⟨⟨0, 0, 10, 10⟩, fun _ => 7⟩, true, ⟨⟨0, 0, 10, 10⟩, fun _ => 7⟩⟩
        ⟨2, 2, 4, 4⟩ ⟨⟨0, 0, 2, 2⟩, fun _ => 9⟩).fbcopy.pix (0, 0) = 7 :=
  ⟨((render_mirror ⟨⟨⟨0, 0, 10, 10⟩, fun _ => 7⟩, true, ⟨⟨0, 0, 10, 10⟩, fun _ => 7⟩⟩
      ⟨2, 2, 4, 4⟩ ⟨⟨0, 0, 2, 2⟩, fun _ => 9⟩).2.1 rfl).2.1 (2, 2) rfl rfl rfl,
   ((render_mirror ⟨⟨⟨0, 0, 10, 10⟩, fun _ => 7⟩, true, ⟨⟨0, 0, 10, 10⟩, fun _ => 7⟩⟩
      ⟨2, 2, 4, 4⟩ ⟨⟨0, 0, 2, 2⟩, fun _ => 9⟩).2.1 rfl).2.2 (0, 0) rfl⟩

/-- When no cell of the page aborts, the stoppers `runCells` collects are
exactly the cells whose `startOrExecute` returned a stop channel. -/
lemma runCells_stops (hostname : String) (page : PageT) (pageIx : Nat) :
    ∀ (cells : List CellT) (i : Nat),
      (runCells hostname page pageIx i cells).2.2 = false →
      (runCells hostname page pageIx i cells).2.1 = stopsExpected hostname page i cells := by
  intro cells
  induction cells with
  | nil => intro i _; rfl
  | cons c rest ih =>
    intro i hab
    rcases hrec : runCells hostname page pageIx (i + 1) rest with ⟨evs, stops, ab⟩
    cases hp : prepareCell page hostname c with
    | error msg =>
      simp [runCells, hp] at hab
    | ok c' =>
      by_cases hpan : (startOrExecute c'.RefreshSecs).outcome = .panicked
      · simp [runCells, hp, hpan] at hab
      · simp only [runCells, hp, hpan, if_false, hrec] at hab ⊢
        try simp at hab
        have h2 := ih (i + 1)
        rw [hrec] at h2
        simp [hab] at h2
        simp [stopsExpected, hp, h2, hpan]

/-- With more than one page, a positive duration and no fatal cell, one
`main`-loop iteration is: blank and cell events, then the sleep, then one
signal per stopper, then `wg.Wait()` as the final step. -/
lemma pageBody_rotate (hostname : String) (xres yres : Int) (numPages pageIx : Nat)
    (page : PageT) (hn : 1 < numPages) (hd : 0 < page.DurationMins)
    (hab : (runCells hostname (activate xres yres page) pageIx 0
      (activate xres yres page).Cells).2.2 = false) :
    pageBody hostname xres yres numPages pageIx page =
      ((Event.blank pageIx :: (runCells hostname (activate xres yres page) pageIx 0
          (activate xres yres page).Cells).1 ++
        Event.sleep page.DurationMins ::
          ((runCells hostname (activate xres yres page) pageIx 0
            (activate xres yres page).Cells).2.1).map Event.signal) ++
       [Event.waitAll], false) := by
  rcases hrec : runCells hostname (activate xres yres page) pageIx 0
      (activate xres yres page).Cells with ⟨evs, stops, ab⟩
  rw [hrec] at hab
  simp at hab
  have hda : (activate xres yres page).DurationMins = page.DurationMins := rfl
  simp [pageBody, hrec, hab, hn, hd, hda]

/-- C3: with more than one page and a rotation duration on the active page,
the iteration for that page signals every collected stopper after the
sleep and ends with the `wg.Wait()` drain barrier; the stoppers are
exactly the cells whose `startOrExecute` returned a handle (the recurring
tasks); every trace position before the end of the iteration belongs to
that iteration, so the next page's cells are prepared only after the
drain; and the page index advances circularly, wrapping from the last
page back to the first. -/
theorem page_rotation (hostname : String) (xres yres : Int) (pages : List PageT)
    (ix : Nat) (page : PageT) (fuel : Nat)
    (hn : 1 < pages.length)
    (hp : pages[ix]? = some page)
    (hd : 0 < page.DurationMins)
    (hab : (runCells hostname (activate xres yres page) ix 0
      (activate xres yres page).Cells).2.2 = false) :
    (pageBody hostname xres yres pages.length ix page).1 =
      (Event.blank ix :: (runCells hostname (activate xres yres page) ix 0
          (activate xres yres page).Cells).1 ++
        Event.sleep page.DurationMins ::
          ((runCells hostname (activate xres yres page) ix 0
            (activate xres yres page).Cells).2.1).map Event.signal) ++
      [Event.waitAll] ∧
    (runCells hostname (activate xres yres page) ix 0 (activate xres yres page).Cells).2.1 =
      stopsExpected hostname (activate xres yres page) 0 (activate xres yres page).Cells ∧
    (pageBody hostname xres yres pages.length ix page).1.getLast? = some .waitAll ∧
    mainTrace hostname xres yres pages ix (fuel + 1) =
      (pageBody hostname xres yres pages.length ix page).1 ++
        mainTrace hostname xres yres pages (advanceIx pages.length ix) fuel ∧
    (∀ (j : Nat) (e : Event), j < (pageBody hostname xres yres pages.length ix page).1.length →
      (mainTrace hostname xres yres pages ix (fuel + 1))[j]? = some e →
      e ∈ (pageBody hostname xres yres pages.length ix page).1) ∧
    advanceIx pages.length (pages.length - 1) = 0 ∧
    (ix + 1 < pages.length → advanceIx pages.length ix = ix + 1) := by
  have hpb := pageBody_rotate hostname xres yres pages.length ix page hn hd hab
  have h1 : (pageBody hostname xres yres pages.length ix page).1 =
      (Event.blank ix :: (runCells hostname (activate xres yres page) ix 0
          (activate xres yres page).Cells).1 ++
        Event.sleep page.DurationMins ::
          ((runCells hostname (activate xres yres page) ix 0
            (activate xres yres page).Cells).2.1).map Event.signal) ++
      [Event.waitAll] := by rw [hpb]
  have h4 : mainTrace hostname xres yres pages ix (fuel + 1) =
      (pageBody hostname xres yres pages.length ix page).1 ++
        mainTrace hostname xres yres pages (advanceIx pages.length ix) fuel := by
    simp only [mainTrace, hp, hpb]
    simp
  refine ⟨h1, runCells_stops hostname (activate xres yres page) ix
      (activate xres yres page).Cells 0 hab, ?_, h4, ?_, ?_, ?_⟩
  · rw [h1]
    exact List.getLast?_concat _
  · intro j e hj hget
    rw [h4] at hget
    rw [List.getElem?_append, if_pos hj] at hget
    exact List.getElem?_mem hget
  · have hlen : pages.length - 1 + 1 = pages.length := by omega
    simp [advanceIx, hlen]
  · intro hlt
    have hne : ¬ (ix + 1 = pages.length) := by omega
    simp [advanceIx, hne]

/-- A two-page rotation configuration used to witness C3: page `rotA` has a
recurring clock cell and a one-shot text cell, page `rotB` a recurring
remote image. -/
def rotA : PageT :=
  { Rows := 1, Cols := 2, DurationMins := 1,
    Cells := [{ CellType := "time", RefreshSecs := 1 }, { CellType := "text" }] }

def rotB : PageT :=
  { Rows := 1, Cols := 1, DurationMins := 2,
    Cells := [{ CellType := "urlimage", RefreshSecs := 30 }] }

/-- Witness for C3 on the concrete two-page configuration. -/
theorem page_rotation_witness :
    (pageBody "h" 640 480 (List.length [rotA, rotB]) 0 rotA).1.getLast? =
      some Event.waitAll ∧
    mainTrace "h" 640 480 [rotA, rotB] 0 (1 + 1) =
      (pageBody "h" 640 480 (List.length [rotA, rotB]) 0 rotA).1 ++
        mainTrace "h" 640 480 [rotA, rotB] (advanceIx (List.length [rotA, rotB]) 0) 1 ∧
    (runCells "h" (activate 640 480 rotA) 0 0 (activate 640 480 rotA).Cells).2.1 =
      stopsExpected "h" (activate 640 480 rotA) 0 (activate 640 480 rotA).Cells ∧
    advanceIx (List.length [rotA, rotB]) (List.length [rotA, rotB] - 1) = 0 :=
  have h := page_rotation "h" 640 480 [rotA, rotB] 0 rotA 1
    (by decide) rfl (by decide) rfl
  ⟨h.2.2.1, h.2.2.2.1, h.2.1, h.2.2.2.2.2.1⟩

end Fbinfogrid
